import Mathlib

/-!
# Verification of the webcore-go `LibraryManager` lifecycle registry

Shallow embedding of `core.LibraryManager` (file `src/unnamed/part_000`,
Go package `core`) and of the `AuthN` middleware handler
(`src/libraries/authn/authn/authn.go`).

Modelling conventions:

* Go's untyped variadic arguments `args ...any` are abstracted as `List Arg`
  with `Arg := Nat`; nothing in the registry inspects the arguments, it only
  forwards them.
* A `port.Library` instance is modelled as a `Library` value carrying an
  allocation identity `id` (two instances are "the identical object" iff
  their `id`s agree) and the flag `isConnector` (whether the dynamic type
  assertion `library.(port.Connector)` succeeds).
* The behaviour of the collaborator methods `Install`, `Connect`,
  `Disconnect`, `Uninstall` (arbitrary user code in Go) is supplied by a
  `Behavior` oracle, a deterministic function of the instance — adequate for
  the single-threaded claims under verification.
* Go maps are modelled as association lists with lookup / insert / delete
  functions (`assocGet`, `assocSet`, `assocDel`); the claims under
  verification do not depend on Go's randomized iteration order.
* `reflect.New` always allocates a fresh object: the model threads a counter
  `nextId` through the state and stamps new instances with it.
* A Go `nil`-pointer instance key is `Option.none`; an operation that would
  dereference a nil pointer (panic) returns `Option.none` as its overall
  result, a normal return is `Option.some`.
* Each operation also returns the list of collaborator calls it performed
  (`Event` trace), so "Init is invoked exactly once" and similar claims are
  counting statements about the trace.
-/

/-- Construction arguments (`args ...any` in Go), abstracted. -/
abbrev Arg := Nat

/-- A `port.Library` instance: an object identity plus whether the
`port.Connector` type assertion succeeds on it. -/
structure Library where
  id : Nat
  isConnector : Bool
deriving DecidableEq, Repr

/-- Collaborator calls performed by the registry, recorded in order. -/
inductive Event where
  | initCall (loaderName : String) (args : List Arg)
  | installCall (libId : Nat) (args : List Arg)
  | connectCall (libId : Nat)
  | disconnectCall (libId : Nat)
  | uninstallCall (libId : Nat)
  | warnLog (msg : String)
deriving DecidableEq, Repr

/-- A `core.LibraryLoader` after `SetName`: its name and its `Init`
behaviour (arbitrary user code, modelled as a deterministic oracle). -/
structure LibraryLoader where
  name : String
  init : List Arg → Except String Library

/-- Oracle for the instance lifecycle methods (user code behind the
`port.Library` / `port.Connector` interfaces). -/
structure Behavior where
  install : Library → List Arg → Except String Unit
  connect : Library → Except String Unit
  disconnect : Library → Except String Unit
  uninstall : Library → Except String Unit

/-- Go map read `m[k]`. -/
def assocGet {α : Type} (m : List (String × α)) (k : String) : Option α :=
  match m with
  | [] => none
  | (k2, v) :: rest => if k2 = k then some v else assocGet rest k

/-- Go map write `m[k] = v`. -/
def assocSet {α : Type} (m : List (String × α)) (k : String) (v : α) :
    List (String × α) :=
  match m with
  | [] => [(k, v)]
  | (k2, v2) :: rest =>
      if k2 = k then (k, v) :: rest else (k2, v2) :: assocSet rest k v

/-- Go map delete `delete(m, k)`. -/
def assocDel {α : Type} (m : List (String × α)) (k : String) :
    List (String × α) :=
  match m with
  | [] => []
  | (k2, v2) :: rest =>
      if k2 = k then rest else (k2, v2) :: assocDel rest k

/-- One instance bucket: instance key → `port.Library`. -/
abbrev LibMap := List (String × Library)

/-- The mutable state of a `core.LibraryManager`: the nested
`Libraries` cache plus the allocator counter backing `reflect.New`. -/
structure LMState where
  Libraries : List (String × LibMap)
  nextId : Nat
deriving DecidableEq, Repr

/-- Result of one registry operation: the Go return value, the state after
the call, and the collaborator calls made (in order).  The whole triple is
wrapped in `Option`: `none` models a runtime panic (nil map-key pointer
dereference). -/
abbrev OpResult := Except String Library × LMState × List Event

/-- The construction tail of `LoadFromLoader` after a cache probe missed:
`load.Init(args...)`, then store the instance into the (possibly empty)
bucket `libMap` of `name`, substituting `"default"` for a nil non-singleton
key at store time — exactly the Go code below the probes. -/
def loadFromLoaderTail (load : LibraryLoader) (name : String) (singleton : Bool)
    (key : Option String) (args : List Arg) (libMap : LibMap) (s : LMState) :
    Option OpResult :=
  match load.init args with
  | .error e => some (.error e, s, [.initCall name args])
  | .ok library =>
      let k := if singleton then "default" else (key.getD "default")
      some (.ok library,
            { s with Libraries := assocSet s.Libraries name (assocSet libMap k library) },
            [.initCall name args])

/-- Embedding of `(*LibraryManager).LoadFromLoader` (src/unnamed/part_000).
Mirrors the Go control flow branch by branch; `key = none` is a `nil`
key pointer and the dereference `libMap[*key]` on a nil key is a panic
(overall result `none`). -/
def LoadFromLoader (load : LibraryLoader) (name : String) (singleton : Bool)
    (key : Option String) (args : List Arg) (s : LMState) : Option OpResult :=
  match assocGet s.Libraries name with
  | none =>
      -- bucket for `name` absent: Init, build a fresh bucket, store
      loadFromLoaderTail load name singleton key args [] s
  | some libMap =>
      -- bucket exists: probe the cache, fall through to construction on miss
      if singleton then
        match assocGet libMap "default" with
        | some ptr => some (.ok ptr, s, [])
        | none => loadFromLoaderTail load name singleton key args libMap s
      else
        match key with
        | none => none               -- Go: `libMap[*key]` on nil key panics
        | some k =>
            match assocGet libMap k with
            | some ptr => some (.ok ptr, s, [])
            | none => loadFromLoaderTail load name singleton key args libMap s

/-- Embedding of `LoadSingletonFromLoader`. -/
def LoadSingletonFromLoader (loader : LibraryLoader) (args : List Arg)
    (s : LMState) : Option OpResult :=
  LoadFromLoader loader loader.name true none args s

/-- Embedding of `LoadInstanceFromLoader`. -/
def LoadInstanceFromLoader (loader : LibraryLoader) (key : String)
    (args : List Arg) (s : LMState) : Option OpResult :=
  LoadFromLoader loader loader.name false (some key) args s

/-- A concrete Go type handed to the reflective path, after the
`reflect.Ptr → Elem()` normalization: its bare `Name()`, whether the
zero value satisfies `port.Library`, and whether it satisfies
`port.Connector`. -/
structure LibType where
  name : String
  implementsLibrary : Bool
  isConnector : Bool
deriving DecidableEq, Repr

/-- The bucket-absent construction block of `LoadLibrary`: `reflect.New`,
Library type assertion, `Install`, then `Connect` if the instance is a
Connector, then create the bucket and store. -/
def loadLibraryFreshBucket (B : Behavior) (libType : LibType) (singleton : Bool)
    (key : Option String) (args : List Arg) (s : LMState) : Option OpResult :=
  let library : Library := { id := s.nextId, isConnector := libType.isConnector }
  let s1 : LMState := { s with nextId := s.nextId + 1 }
  if libType.implementsLibrary then
    match B.install library args with
    | .error e => some (.error e, s1, [.installCall library.id args])
    | .ok _ =>
        if library.isConnector then
          match B.connect library with
          | .error e =>
              some (.error e, s1,
                    [.installCall library.id args, .connectCall library.id])
          | .ok _ =>
              let k := if singleton then "default" else (key.getD "default")
              some (.ok library,
                    { s1 with Libraries :=
                        assocSet s1.Libraries libType.name (assocSet [] k library) },
                    [.installCall library.id args, .connectCall library.id])
        else
          let k := if singleton then "default" else (key.getD "default")
          some (.ok library,
                { s1 with Libraries :=
                    assocSet s1.Libraries libType.name (assocSet [] k library) },
                [.installCall library.id args])
  else
    some (.error ("type " ++ libType.name ++ " does not implement Library interface"),
          s1, [])

/-- The bucket-present / key-miss construction block of `LoadLibrary`:
`reflect.New`, Library type assertion, `Install`, store into the existing
bucket.  The source calls no `Connect` on this path. -/
def loadLibraryExistingBucket (B : Behavior) (libType : LibType) (singleton : Bool)
    (key : Option String) (args : List Arg) (libMap : LibMap) (s : LMState) :
    Option OpResult :=
  let library : Library := { id := s.nextId, isConnector := libType.isConnector }
  let s1 : LMState := { s with nextId := s.nextId + 1 }
  if libType.implementsLibrary then
    match B.install library args with
    | .error e => some (.error e, s1, [.installCall library.id args])
    | .ok _ =>
        let k := if singleton then "default" else (key.getD "default")
        some (.ok library,
              { s1 with Libraries :=
                  assocSet s1.Libraries libType.name (assocSet libMap k library) },
              [.installCall library.id args])
  else
    some (.error ("type " ++ libType.name ++ " does not implement Library interface"),
          s1, [])

/-- Embedding of `(*LibraryManager).LoadLibrary` (the type-keyed,
reflection-based get-or-create).  `reflect.New` is modelled as stamping the
fresh instance with `s.nextId` and bumping the counter.  Mirrors the Go
control flow branch by branch — in particular the bucket-exists / key-miss
path calls `Install` but not `Connect`, exactly as the source does. -/
def LoadLibrary (B : Behavior) (libType : LibType) (singleton : Bool)
    (key : Option String) (args : List Arg) (s : LMState) : Option OpResult :=
  match assocGet s.Libraries libType.name with
  | none => loadLibraryFreshBucket B libType singleton key args s
  | some libMap =>
      if singleton then
        match assocGet libMap "default" with
        | some ptr => some (.ok ptr, s, [])
        | none => loadLibraryExistingBucket B libType singleton key args libMap s
      else
        match key with
        | none => none               -- Go: `libMap[*key]` on nil key panics
        | some k =>
            match assocGet libMap k with
            | some ptr => some (.ok ptr, s, [])
            | none => loadLibraryExistingBucket B libType singleton key args libMap s

/-- Embedding of `LoadSingleton` (type-keyed). -/
def LoadSingleton (B : Behavior) (libType : LibType) (args : List Arg)
    (s : LMState) : Option OpResult :=
  LoadLibrary B libType true none args s

/-- Embedding of `LoadInstance` (type-keyed). -/
def LoadInstance (B : Behavior) (libType : LibType) (key : String)
    (args : List Arg) (s : LMState) : Option OpResult :=
  LoadLibrary B libType false (some key) args s

/-- The cache mutation at the end of a successful `unload`:
`delete(*libMap, libKey)` on the live bucket, then removal of the bucket
from `lm.Libraries` if it became empty. -/
def removeEntry (s : LMState) (name : String) (libKey : String) : LMState :=
  let libMap := (assocGet s.Libraries name).getD []
  let libMap2 := assocDel libMap libKey
  if libMap2.length = 0 then { s with Libraries := assocDel s.Libraries name }
  else { s with Libraries := assocSet s.Libraries name libMap2 }

/-- Embedding of the private `(*LibraryManager).unload`: Disconnect first if
the instance is a Connector (failure aborts before Uninstall and leaves the
cache untouched), then Uninstall (failure leaves the cache untouched), then
remove the entry and, if the bucket emptied, the bucket. -/
def unload (B : Behavior) (name : String) (library : Library) (libKey : String)
    (s : LMState) : Except String Library × LMState × List Event :=
  if library.isConnector then
    match B.disconnect library with
    | .error e =>
        (.error ("failed to close connector: " ++ e), s, [.disconnectCall library.id])
    | .ok _ =>
        match B.uninstall library with
        | .error e =>
            (.error ("failed to destroy library: " ++ e), s,
             [.disconnectCall library.id, .uninstallCall library.id])
        | .ok _ =>
            (.ok library, removeEntry s name libKey,
             [.disconnectCall library.id, .uninstallCall library.id])
  else
    match B.uninstall library with
    | .error e =>
        (.error ("failed to destroy library: " ++ e), s, [.uninstallCall library.id])
    | .ok _ =>
        (.ok library, removeEntry s name libKey, [.uninstallCall library.id])

/-- Embedding of `(*LibraryManager).UnloadLibrary`. -/
def UnloadLibrary (B : Behavior) (libType : LibType) (singleton : Bool)
    (key : Option String) (s : LMState) :
    Except String Library × LMState × List Event :=
  let name := libType.name
  match assocGet s.Libraries name with
  | none => (.error ("library type " ++ name ++ " not found"), s, [])
  | some libMap =>
      let keyRes : Except String String :=
        if singleton then .ok "default"
        else match key with
          | none => .error "key is required for non-singleton libraries"
          | some k => .ok k
      match keyRes with
      | .error e => (.error e, s, [])
      | .ok libKey =>
          match assocGet libMap libKey with
          | none =>
              (.error ("library instance with key " ++ libKey ++ " not found"), s, [])
          | some library => unload B name library libKey s

/-- Embedding of `UnloadSingleton`. -/
def UnloadSingleton (B : Behavior) (libType : LibType) (s : LMState) :
    Except String Library × LMState × List Event :=
  UnloadLibrary B libType true none s

/-- Embedding of `UnloadInstance`. -/
def UnloadInstance (B : Behavior) (libType : LibType) (key : String)
    (s : LMState) : Except String Library × LMState × List Event :=
  UnloadLibrary B libType false (some key) s

/-- Inner sweep of `Destroy` over one bucket's entries; a failed `unload`
is logged (`warnLog`) and the sweep continues. -/
def destroyBucket (B : Behavior) (name : String) (entries : List (String × Library))
    (s : LMState) (tr : List Event) : LMState × List Event :=
  match entries with
  | [] => (s, tr)
  | (k, lib) :: rest =>
      let step := unload B name lib k s
      let logged : List Event :=
        match step.1 with
        | .error e => [Event.warnLog e]
        | .ok _ => []
      destroyBucket B name rest step.2.1 (tr ++ step.2.2 ++ logged)

/-- Outer sweep of `Destroy` over all buckets. -/
def destroyAll (B : Behavior) (buckets : List (String × LibMap)) (s : LMState)
    (tr : List Event) : LMState × List Event :=
  match buckets with
  | [] => (s, tr)
  | (name, libMap) :: rest =>
      let inner := destroyBucket B name libMap s tr
      destroyAll B rest inner.1 inner.2

/-- Embedding of `(*LibraryManager).Destroy`: iterate every bucket and
every instance key, attempt `unload` on each, log failures, return `nil`. -/
def Destroy (B : Behavior) (s : LMState) : Except String Unit × LMState × List Event :=
  let swept := destroyAll B s.Libraries s []
  (.ok (), swept.1, swept.2)

/-! ## The `AuthN` middleware handler (src/libraries/authn/authn/authn.go) -/

/-- The identity resolved by the authenticator. -/
structure User where
  uid : Nat
deriving DecidableEq, Repr

/-- The per-request data the handler consults on the fiber context. -/
structure AuthCtx where
  method : String
  path : String
deriving DecidableEq, Repr

/-- Calls the handler makes, in order. -/
inductive AEvent where
  | validateKeyCall
  | authnCheckCall
  | authzCheckCall
  | nextCall
deriving DecidableEq, Repr

/-- The `AuthN` middleware with its three injected strategies, modelled as
deterministic per-request oracles: `a.Validator.ValidateKey(c)`,
`a.Authenticator.Check(c)`, `a.Authenticator.Loader.GetLoadedUser()` (the
identity resolved for this request), and `a.Authorizer.Check(user, method,
path)`. -/
structure AuthN where
  validateKey : AuthCtx → Except String Unit
  authnCheck : AuthCtx → Except String Unit
  loadedUser : AuthCtx → User
  authzCheck : User → String → String → Except String Unit

/-- Outcome of the fiber handler: a JSON error response with an HTTP status,
or falling through to `c.Next()`. -/
inductive HandlerResult where
  | unauthorized (httpCode : Nat) (errorCode : Nat) (errorName : String) (msg : String)
  | next
deriving DecidableEq, Repr

/-- Embedding of the closure returned by `GetAuthenticatonHandler` (name kept
as spelled in the source): validator, then authenticator, then authorizer,
each failure short-circuiting into a 401 response. -/
def GetAuthenticatonHandler (a : AuthN) (c : AuthCtx) :
    HandlerResult × List AEvent :=
  match a.validateKey c with
  | .error e => (.unauthorized 401 2 "UNAUTHORIZED" e, [.validateKeyCall])
  | .ok _ =>
      match a.authnCheck c with
      | .error e =>
          (.unauthorized 401 2 "UNAUTHORIZED" e, [.validateKeyCall, .authnCheckCall])
      | .ok _ =>
          match a.authzCheck (a.loadedUser c) c.method c.path with
          | .error e =>
              (.unauthorized 401 2 "UNAUTHORIZED" e,
               [.validateKeyCall, .authnCheckCall, .authzCheckCall])
          | .ok _ =>
              (.next, [.validateKeyCall, .authnCheckCall, .authzCheckCall, .nextCall])

/-! ## Derived notions used to state the claims -/

/-- Read the cache at a compound key (name, instance key). -/
def cacheLookup (s : LMState) (name k : String) : Option Library :=
  match assocGet s.Libraries name with
  | none => none
  | some m => assocGet m k

/-- Number of `Init` invocations recorded in a trace. -/
def countInit (tr : List Event) : Nat :=
  (tr.filter (fun ev => match ev with | .initCall _ _ => true | _ => false)).length

/-- A state whose nested maps have no duplicate keys — every state that a
real Go map can be in. -/
def wfState (s : LMState) : Prop :=
  (s.Libraries.map Prod.fst).Nodup ∧ ∀ p ∈ s.Libraries, (p.2.map Prod.fst).Nodup

instance (s : LMState) : Decidable (wfState s) := by
  unfold wfState; infer_instance

/-! ## Association-list facts -/

theorem assocGet_set_self {α : Type} (m : List (String × α)) (k : String) (v : α) :
    assocGet (assocSet m k v) k = some v := by
  induction m with
  | nil => simp [assocGet, assocSet]
  | cons hd tl ih =>
      obtain ⟨k2, v2⟩ := hd
      by_cases h : k2 = k <;> simp [assocGet, assocSet, h, ih]

theorem assocGet_eq_none_of_not_mem {α : Type} (m : List (String × α)) (k : String)
    (h : k ∉ m.map Prod.fst) : assocGet m k = none := by
  induction m with
  | nil => simp [assocGet]
  | cons hd tl ih =>
      obtain ⟨k2, v2⟩ := hd
      simp only [List.map_cons, List.mem_cons] at h
      push_neg at h
      simp [assocGet, Ne.symm h.1, ih h.2]

theorem assocGet_del_self {α : Type} (m : List (String × α)) (k : String)
    (h : (m.map Prod.fst).Nodup) : assocGet (assocDel m k) k = none := by
  induction m with
  | nil => simp [assocGet, assocDel]
  | cons hd tl ih =>
      obtain ⟨k2, v2⟩ := hd
      simp only [List.map_cons, List.nodup_cons] at h
      by_cases hk : k2 = k
      · subst hk
        simpa [assocDel] using assocGet_eq_none_of_not_mem tl k2 h.1
      · simp [assocDel, hk, assocGet, ih h.2]

/-- The state change a successful construction performs: store the new
instance in the bucket of `name` (creating the bucket if absent) under `k`. -/
def cacheStore (s : LMState) (name k : String) (lib : Library) : LMState :=
  let bucket : LibMap := Option.getD (assocGet s.Libraries name) []
  { s with Libraries := assocSet s.Libraries name (assocSet bucket k lib) }

theorem LoadFromLoader_hit (load : LibraryLoader) (name : String) (sing : Bool)
    (key : Option String) (keyU : String) (args : List Arg) (s : LMState)
    (lib : Library)
    (hk : if sing then keyU = "default" else key = some keyU)
    (hcache : cacheLookup s name keyU = some lib) :
    LoadFromLoader load name sing key args s = some (.ok lib, s, []) := by
  cases hbg : assocGet s.Libraries name with
  | none => simp [cacheLookup, hbg] at hcache
  | some libMap =>
      simp only [cacheLookup, hbg] at hcache
      cases sing with
      | true =>
          simp only [if_true] at hk
          subst hk
          simp [LoadFromLoader, hbg, hcache]
      | false =>
          simp only [Bool.false_eq_true, if_false] at hk
          subst hk
          simp [LoadFromLoader, hbg, hcache]

theorem LoadFromLoader_miss (load : LibraryLoader) (name : String) (sing : Bool)
    (key : Option String) (keyU : String) (args : List Arg) (s : LMState)
    (hk : if sing then keyU = "default" else key = some keyU)
    (hmiss : cacheLookup s name keyU = none) :
    LoadFromLoader load name sing key args s =
      match load.init args with
      | .error e => some (.error e, s, [.initCall name args])
      | .ok lib => some (.ok lib, cacheStore s name keyU lib, [.initCall name args]) := by
  cases hbg : assocGet s.Libraries name with
  | none =>
      cases sing with
      | true =>
          simp only [if_true] at hk
          subst hk
          cases hinit : load.init args <;>
            simp [LoadFromLoader, loadFromLoaderTail, hbg, hinit, cacheStore]
      | false =>
          simp only [Bool.false_eq_true, if_false] at hk
          subst hk
          cases hinit : load.init args <;>
            simp [LoadFromLoader, loadFromLoaderTail, hbg, hinit, cacheStore]
  | some libMap =>
      simp only [cacheLookup, hbg] at hmiss
      cases sing with
      | true =>
          simp only [if_true] at hk
          subst hk
          cases hinit : load.init args <;>
            simp [LoadFromLoader, loadFromLoaderTail, hbg, hinit, hmiss, cacheStore]
      | false =>
          simp only [Bool.false_eq_true, if_false] at hk
          subst hk
          cases hinit : load.init args <;>
            simp [LoadFromLoader, loadFromLoaderTail, hbg, hinit, hmiss, cacheStore]

theorem LoadLibrary_hit (B : Behavior) (T : LibType) (sing : Bool)
    (key : Option String) (keyU : String) (args : List Arg) (s : LMState)
    (lib : Library)
    (hk : if sing then keyU = "default" else key = some keyU)
    (hcache : cacheLookup s T.name keyU = some lib) :
    LoadLibrary B T sing key args s = some (.ok lib, s, []) := by
  cases hbg : assocGet s.Libraries T.name with
  | none => simp [cacheLookup, hbg] at hcache
  | some libMap =>
      simp only [cacheLookup, hbg] at hcache
      cases sing with
      | true =>
          simp only [if_true] at hk
          subst hk
          simp [LoadLibrary, hbg, hcache]
      | false =>
          simp only [Bool.false_eq_true, if_false] at hk
          subst hk
          simp [LoadLibrary, hbg, hcache]

theorem cacheLookup_store_self (s : LMState) (n k : String) (lib : Library) :
    cacheLookup (cacheStore s n k lib) n k = some lib := by
  simp [cacheLookup, cacheStore, assocGet_set_self]

/-- The trace component of an operation result (`[]` for a panicked call). -/
def traceOf (r : Option OpResult) : List Event :=
  match r with
  | none => []
  | some x => x.2.2

/-- The cache probe performed at the head of both load paths finds nothing
(and does not panic): either the bucket is absent, or the resolved instance
key is absent in it. -/
def probeMiss (s : LMState) (name : String) (sing : Bool) (key : Option String) : Prop :=
  match assocGet s.Libraries name, sing, key with
  | none, _, _ => True
  | some m, true, _ => assocGet m "default" = none
  | some m, false, some kk => assocGet m kk = none
  | some _, false, none => False

theorem loadFromLoaderTail_error (load : LibraryLoader) (name : String)
    (sing : Bool) (key : Option String) (args : List Arg) (libMap : LibMap)
    (s s2 : LMState) (e : String) (tr : List Event)
    (h : loadFromLoaderTail load name sing key args libMap s = some (.error e, s2, tr)) :
    s2 = s ∧ load.init args = .error e := by
  unfold loadFromLoaderTail at h
  cases hinit : load.init args with
  | error e2 =>
      rw [hinit] at h
      simp only [Option.some_inj, Prod.mk.injEq, Except.error.injEq] at h
      exact ⟨h.2.1.symm, by rw [h.1]⟩
  | ok library => rw [hinit] at h; simp at h

theorem loadFromLoaderTail_initEvent (load : LibraryLoader) (name : String)
    (sing : Bool) (key : Option String) (args : List Arg) (libMap : LibMap)
    (s : LMState) :
    Event.initCall name args ∈
      traceOf (loadFromLoaderTail load name sing key args libMap s) := by
  cases hinit : load.init args <;>
    simp [loadFromLoaderTail, hinit, traceOf]

theorem LoadFromLoader_error_state (load : LibraryLoader) (name : String)
    (sing : Bool) (key : Option String) (args : List Arg) (s s2 : LMState)
    (e : String) (tr : List Event)
    (h : LoadFromLoader load name sing key args s = some (.error e, s2, tr)) :
    s2 = s ∧ probeMiss s name sing key ∧ load.init args = .error e := by
  unfold LoadFromLoader at h
  cases hbg : assocGet s.Libraries name with
  | none =>
      simp only [hbg] at h
      obtain ⟨hs, hinit⟩ := loadFromLoaderTail_error load name sing key args [] s s2 e tr h
      exact ⟨hs, by simp [probeMiss, hbg], hinit⟩
  | some libMap =>
      cases sing with
      | true =>
          simp only [hbg, eq_self_iff_true, if_true] at h
          cases hpr : assocGet libMap "default" with
          | some ptr => rw [hpr] at h; simp at h
          | none =>
              rw [hpr] at h
              obtain ⟨hs, hinit⟩ :=
                loadFromLoaderTail_error load name true key args libMap s s2 e tr h
              exact ⟨hs, by simp [probeMiss, hbg, hpr], hinit⟩
      | false =>
          simp only [hbg, Bool.false_eq_true, if_false] at h
          cases key with
          | none => simp at h
          | some kk =>
              simp only at h
              cases hpr : assocGet libMap kk with
              | some ptr => rw [hpr] at h; simp at h
              | none =>
                  rw [hpr] at h
                  obtain ⟨hs, hinit⟩ :=
                    loadFromLoaderTail_error load name false (some kk) args libMap s s2 e tr h
                  exact ⟨hs, by simp [probeMiss, hbg, hpr], hinit⟩

theorem LoadFromLoader_attempts_init (load : LibraryLoader) (name : String)
    (sing : Bool) (key : Option String) (args : List Arg) (s : LMState)
    (hm : probeMiss s name sing key) :
    Event.initCall name args ∈ traceOf (LoadFromLoader load name sing key args s) := by
  unfold LoadFromLoader
  cases hbg : assocGet s.Libraries name with
  | none => exact loadFromLoaderTail_initEvent load name sing key args [] s
  | some libMap =>
      cases sing with
      | true =>
          simp only [probeMiss, hbg] at hm
          simp only [eq_self_iff_true, if_true, hm]
          exact loadFromLoaderTail_initEvent load name true key args libMap s
      | false =>
          cases key with
          | none => simp [probeMiss, hbg] at hm
          | some kk =>
              simp only [probeMiss, hbg] at hm
              simp only [Bool.false_eq_true, if_false, hm]
              exact loadFromLoaderTail_initEvent load name false (some kk) args libMap s

theorem loadLibraryFreshBucket_error (B : Behavior) (T : LibType) (sing : Bool)
    (key : Option String) (args : List Arg) (s s2 : LMState) (e : String)
    (tr : List Event)
    (h : loadLibraryFreshBucket B T sing key args s = some (.error e, s2, tr)) :
    s2.Libraries = s.Libraries := by
  unfold loadLibraryFreshBucket at h
  cases himp : T.implementsLibrary with
  | true =>
    simp only [himp, eq_self_iff_true, if_true] at h
    cases hins : B.install { id := s.nextId, isConnector := T.isConnector } args with
    | error e2 =>
        rw [hins] at h
        simp only [Option.some_inj, Prod.mk.injEq] at h
        rw [← h.2.1]
    | ok u =>
        rw [hins] at h
        cases hc : T.isConnector with
        | false => simp [hc] at h
        | true =>
            simp only [hc] at h
            cases hcon : B.connect { id := s.nextId, isConnector := true } with
            | error e2 =>
                rw [hcon] at h
                simp only [eq_self_iff_true, if_true, Option.some_inj, Prod.mk.injEq] at h
                rw [← h.2.1]
            | ok u2 => rw [hcon] at h; simp at h
  | false =>
    simp only [himp, Bool.false_eq_true, if_false] at h
    simp only [Option.some_inj, Prod.mk.injEq] at h
    rw [← h.2.1]

theorem loadLibraryExistingBucket_error (B : Behavior) (T : LibType) (sing : Bool)
    (key : Option String) (args : List Arg) (libMap : LibMap) (s s2 : LMState)
    (e : String) (tr : List Event)
    (h : loadLibraryExistingBucket B T sing key args libMap s = some (.error e, s2, tr)) :
    s2.Libraries = s.Libraries := by
  unfold loadLibraryExistingBucket at h
  cases himp : T.implementsLibrary with
  | true =>
    simp only [himp, eq_self_iff_true, if_true] at h
    cases hins : B.install { id := s.nextId, isConnector := T.isConnector } args with
    | error e2 =>
        rw [hins] at h
        simp only [Option.some_inj, Prod.mk.injEq] at h
        rw [← h.2.1]
    | ok u => rw [hins] at h; simp at h
  | false =>
    simp only [himp, Bool.false_eq_true, if_false] at h
    simp only [Option.some_inj, Prod.mk.injEq] at h
    rw [← h.2.1]

theorem LoadLibrary_error_state (B : Behavior) (T : LibType) (sing : Bool)
    (key : Option String) (args : List Arg) (s s2 : LMState)
    (e : String) (tr : List Event)
    (h : LoadLibrary B T sing key args s = some (.error e, s2, tr)) :
    s2.Libraries = s.Libraries ∧ probeMiss s T.name sing key := by
  unfold LoadLibrary at h
  cases hbg : assocGet s.Libraries T.name with
  | none =>
      simp only [hbg] at h
      exact ⟨loadLibraryFreshBucket_error B T sing key args s s2 e tr h,
             by simp [probeMiss, hbg]⟩
  | some libMap =>
      cases sing with
      | true =>
          simp only [hbg, eq_self_iff_true, if_true] at h
          cases hpr : assocGet libMap "default" with
          | some ptr => rw [hpr] at h; simp at h
          | none =>
              rw [hpr] at h
              exact ⟨loadLibraryExistingBucket_error B T true key args libMap s s2 e tr h,
                     by simp [probeMiss, hbg, hpr]⟩
      | false =>
          simp only [hbg, Bool.false_eq_true, if_false] at h
          cases key with
          | none => simp at h
          | some kk =>
              simp only at h
              cases hpr : assocGet libMap kk with
              | some ptr => rw [hpr] at h; simp at h
              | none =>
                  rw [hpr] at h
                  exact ⟨loadLibraryExistingBucket_error B T false (some kk) args libMap s s2 e tr h,
                         by simp [probeMiss, hbg, hpr]⟩

theorem loadLibraryFreshBucket_installEvent (B : Behavior) (T : LibType)
    (sing : Bool) (key : Option String) (args : List Arg) (s : LMState)
    (himp : T.implementsLibrary = true) :
    Event.installCall s.nextId args ∈
      traceOf (loadLibraryFreshBucket B T sing key args s) := by
  unfold loadLibraryFreshBucket
  simp only [himp, eq_self_iff_true, if_true]
  cases hins : B.install { id := s.nextId, isConnector := T.isConnector } args with
  | error e2 => simp [traceOf]
  | ok u =>
      cases hc : T.isConnector with
      | false => simp [hc, traceOf]
      | true =>
          simp only [hc]
          cases hcon : B.connect { id := s.nextId, isConnector := true } <;>
            simp [traceOf]

theorem loadLibraryExistingBucket_installEvent (B : Behavior) (T : LibType)
    (sing : Bool) (key : Option String) (args : List Arg) (libMap : LibMap)
    (s : LMState) (himp : T.implementsLibrary = true) :
    Event.installCall s.nextId args ∈
      traceOf (loadLibraryExistingBucket B T sing key args libMap s) := by
  unfold loadLibraryExistingBucket
  simp only [himp, eq_self_iff_true, if_true]
  cases hins : B.install { id := s.nextId, isConnector := T.isConnector } args <;>
    simp [traceOf]

theorem LoadLibrary_attempts_install (B : Behavior) (T : LibType) (sing : Bool)
    (key : Option String) (args : List Arg) (s : LMState)
    (himp : T.implementsLibrary = true)
    (hm : probeMiss s T.name sing key) :
    Event.installCall s.nextId args ∈ traceOf (LoadLibrary B T sing key args s) := by
  unfold LoadLibrary
  cases hbg : assocGet s.Libraries T.name with
  | none => exact loadLibraryFreshBucket_installEvent B T sing key args s himp
  | some libMap =>
      cases sing with
      | true =>
          simp only [probeMiss, hbg] at hm
          simp only [eq_self_iff_true, if_true, hm]
          exact loadLibraryExistingBucket_installEvent B T true key args libMap s himp
      | false =>
          cases key with
          | none => simp [probeMiss, hbg] at hm
          | some kk =>
              simp only [probeMiss, hbg] at hm
              simp only [Bool.false_eq_true, if_false, hm]
              exact loadLibraryExistingBucket_installEvent B T false (some kk) args libMap s himp

theorem probeMiss_of_libraries_eq (s s2 : LMState) (name : String) (sing : Bool)
    (key : Option String) (hL : s2.Libraries = s.Libraries)
    (hm : probeMiss s name sing key) : probeMiss s2 name sing key := by
  unfold probeMiss at hm ⊢
  rw [hL]
  exact hm

/-! ## Claims -/

/-- C1: per compound key (loader name, instance key), get-or-create through
`LoadSingletonFromLoader` / `LoadInstanceFromLoader` is idempotent:
starting from a state with no instance under the key, a successful first
call invokes the Loader's `Init` exactly once, and a second call — with any
arguments whatsoever — returns the identical instance, leaves the state
unchanged, and performs no collaborator call at all (`Init` not invoked,
arguments ignored). -/
theorem C1_get_or_create_idempotent
    (loader : LibraryLoader) (k : String) (args1 args2 : List Arg)
    (s s1 : LMState) (lib : Library) (tr1 : List Event) :
    (cacheLookup s loader.name "default" = none →
      LoadSingletonFromLoader loader args1 s = some (.ok lib, s1, tr1) →
      countInit tr1 = 1 ∧
      LoadSingletonFromLoader loader args2 s1 = some (.ok lib, s1, []))
  ∧ (cacheLookup s loader.name k = none →
      LoadInstanceFromLoader loader k args1 s = some (.ok lib, s1, tr1) →
      countInit tr1 = 1 ∧
      LoadInstanceFromLoader loader k args2 s1 = some (.ok lib, s1, [])) := by
  constructor
  · intro h1 h2
    unfold LoadSingletonFromLoader at h2
    rw [LoadFromLoader_miss loader loader.name true none "default" args1 s (by simp) h1] at h2
    cases hinit : loader.init args1 with
    | error e => rw [hinit] at h2; simp at h2
    | ok library =>
        rw [hinit] at h2
        simp only [Option.some_inj, Prod.mk.injEq] at h2
        obtain ⟨hlib, hs1, htr⟩ := h2
        cases hlib
        subst hs1 htr
        refine ⟨by simp [countInit], ?_⟩
        unfold LoadSingletonFromLoader
        exact LoadFromLoader_hit loader loader.name true none "default" args2 _ lib
          (by simp) (cacheLookup_store_self s loader.name "default" lib)
  · intro h1 h2
    unfold LoadInstanceFromLoader at h2
    rw [LoadFromLoader_miss loader loader.name false (some k) k args1 s (by simp) h1] at h2
    cases hinit : loader.init args1 with
    | error e => rw [hinit] at h2; simp at h2
    | ok library =>
        rw [hinit] at h2
        simp only [Option.some_inj, Prod.mk.injEq] at h2
        obtain ⟨hlib, hs1, htr⟩ := h2
        cases hlib
        subst hs1 htr
        refine ⟨by simp [countInit], ?_⟩
        unfold LoadInstanceFromLoader
        exact LoadFromLoader_hit loader loader.name false (some k) k args2 _ lib
          (by simp) (cacheLookup_store_self s loader.name k lib)

/-! ## Concrete fixtures (used by witnesses, counterexamples and bug runs) -/

/-- The empty registry state. -/
def s0 : LMState := { Libraries := [], nextId := 0 }

/-- A loader whose `Init` always succeeds with a fixed instance. -/
def mongoLoader : LibraryLoader :=
  { name := "db:mongodb", init := fun _ => .ok { id := 7, isConnector := false } }

/-- The state after `mongoLoader` materialized its singleton in `s0`. -/
def sMongo : LMState :=
  { Libraries := [("db:mongodb", [("default", { id := 7, isConnector := false })])],
    nextId := 0 }

/-- A loader whose `Init` always fails. -/
def failLoader : LibraryLoader :=
  { name := "db:bad", init := fun _ => .error "boom" }

/-- Collaborator oracle where every lifecycle method succeeds. -/
def bOK : Behavior :=
  { install := fun _ _ => .ok (), connect := fun _ => .ok (),
    disconnect := fun _ => .ok (), uninstall := fun _ => .ok () }

/-- Collaborator oracle where `Install` fails and everything else succeeds. -/
def bFailInstall : Behavior :=
  { install := fun _ _ => .error "ins", connect := fun _ => .ok (),
    disconnect := fun _ => .ok (), uninstall := fun _ => .ok () }

/-- A connection-bearing concrete type for the reflective path. -/
def tCache : LibType :=
  { name := "Cache", implementsLibrary := true, isConnector := true }

/-- A connectionless concrete type for the reflective path. -/
def tWidget : LibType :=
  { name := "Widget", implementsLibrary := true, isConnector := false }

/-- A registry state whose `"Cache"` bucket already holds an instance under
key `"k1"`. -/
def sCacheBucket : LMState :=
  { Libraries := [("Cache", [("k1", { id := 0, isConnector := true })])], nextId := 1 }

/-- C1 sanity: the first singleton load constructs and caches. -/
theorem mongoLoader_first_load :
    LoadSingletonFromLoader mongoLoader [1] s0 =
      some (.ok { id := 7, isConnector := false }, sMongo,
            [.initCall "db:mongodb" [1]]) := rfl

/-- Witness for C1 at a concrete loader and empty registry. -/
theorem C1_witness :
    countInit [Event.initCall "db:mongodb" [1]] = 1 ∧
    LoadSingletonFromLoader mongoLoader [2] sMongo =
      some (.ok { id := 7, isConnector := false }, sMongo, []) :=
  (C1_get_or_create_idempotent mongoLoader "k" [1] [2] s0 sMongo
      { id := 7, isConnector := false } [Event.initCall "db:mongodb" [1]]).1
    rfl rfl

/-- C2 (bug run): on the type-keyed path with a connection-bearing type
(`tCache.isConnector = true`), the bucket-absent miss performs
Install-then-Connect, but the bucket-present / key-miss branch performs
Install only — the trace of the second run contains no `connectCall`, so
the spec's "Install (then Connect if connection-bearing)" does not hold on
that branch. -/
theorem C2_connect_skipped_on_existing_bucket :
    (LoadSingleton bOK tCache [] s0 =
      some (.ok { id := 0, isConnector := true },
            { Libraries := [("Cache", [("default", { id := 0, isConnector := true })])],
              nextId := 1 },
            [Event.installCall 0 [], Event.connectCall 0]))
  ∧ (LoadInstance bOK tCache "k2" [] sCacheBucket =
      some (.ok { id := 1, isConnector := true },
            { Libraries := [("Cache", [("k1", { id := 0, isConnector := true }),
                                       ("k2", { id := 1, isConnector := true })])],
              nextId := 2 },
            [Event.installCall 1 []])) :=
  ⟨rfl, rfl⟩

/-- An instance produced by a Loader named `"Cache"`, for the cross-path run. -/
def libLdr : Library := { id := 100, isConnector := false }

/-- A registered Loader whose name collides with the bare type name of
`tCache`. -/
def cacheLoader : LibraryLoader :=
  { name := "Cache", init := fun _ => .ok libLdr }

/-- The state after `cacheLoader` materialized its singleton in `s0`. -/
def sCross : LMState :=
  { Libraries := [("Cache", [("default", libLdr)])], nextId := 0 }

/-- C3 counterexample: the two paths are NOT independent identity spaces.
An instance created through the Loader-name-keyed path (`cacheLoader`,
name `"Cache"`) is afterwards returned, construction-free (empty trace),
by the type-keyed path for the same-named type `tCache` — refuting
"loading through one path never returns an instance created through the
other" at this concrete input. -/
theorem C3_counterexample_cross_path_return :
    (LoadSingletonFromLoader cacheLoader [] s0).bind
        (fun r => LoadSingleton bOK tCache [] r.2.1) =
      some (.ok libLdr, sCross, []) := rfl

/-- C3 (amended): both load paths key the single `Libraries` map by the
same name, so whatever instance sits under the compound key — through
whichever path it got there — is returned unchanged by the Loader-keyed
path and by the type-keyed path alike. -/
theorem C3_amended_shared_slot
    (load : LibraryLoader) (B : Behavior) (T : LibType) (sing : Bool)
    (key : Option String) (keyU : String) (args : List Arg) (s : LMState)
    (lib : Library)
    (hk : if sing then keyU = "default" else key = some keyU)
    (hcache : cacheLookup s T.name keyU = some lib) :
    LoadFromLoader load T.name sing key args s = some (.ok lib, s, [])
  ∧ LoadLibrary B T sing key args s = some (.ok lib, s, []) :=
  ⟨LoadFromLoader_hit load T.name sing key keyU args s lib hk hcache,
   LoadLibrary_hit B T sing key keyU args s lib hk hcache⟩

/-- Witness for the amended C3 at the colliding name `"Cache"`. -/
theorem C3_witness :
    LoadFromLoader cacheLoader tCache.name true none [5] sCross =
      some (.ok libLdr, sCross, [])
  ∧ LoadLibrary bOK tCache true none [5] sCross =
      some (.ok libLdr, sCross, []) :=
  C3_amended_shared_slot cacheLoader bOK tCache true none "default" [5] sCross libLdr
    rfl rfl

/-- C5: if `Disconnect` fails during an explicit unload of a cached
connection-bearing instance, the unload returns the wrapped error, the
registry state is returned unchanged (the cache entry survives), and the
trace shows the failed `Disconnect` as the only collaborator call —
`Uninstall` is never invoked. -/
theorem C5_disconnect_failure_preserves_entry
    (B : Behavior) (T : LibType) (sing : Bool) (key : Option String)
    (keyU : String) (s : LMState) (lib : Library) (e : String)
    (hk : if sing then keyU = "default" else key = some keyU)
    (hcache : cacheLookup s T.name keyU = some lib)
    (hconn : lib.isConnector = true)
    (hdisc : B.disconnect lib = .error e) :
    UnloadLibrary B T sing key s =
      (.error ("failed to close connector: " ++ e), s, [Event.disconnectCall lib.id]) := by
  cases hbg : assocGet s.Libraries T.name with
  | none => simp [cacheLookup, hbg] at hcache
  | some libMap =>
      simp only [cacheLookup, hbg] at hcache
      cases sing with
      | true =>
          simp only [if_true] at hk
          subst hk
          simp [UnloadLibrary, hbg, hcache, unload, hconn, hdisc]
      | false =>
          simp only [Bool.false_eq_true, if_false] at hk
          subst hk
          simp [UnloadLibrary, hbg, hcache, unload, hconn, hdisc]

/-- Collaborator oracle where `Disconnect` fails and everything else
succeeds. -/
def bFailDisc : Behavior :=
  { install := fun _ _ => .ok (), connect := fun _ => .ok (),
    disconnect := fun _ => .error "dc", uninstall := fun _ => .ok () }

/-- A cached connection-bearing instance under `("Cache", "default")`. -/
def libConn : Library := { id := 3, isConnector := true }

/-- State holding `libConn` under the `"Cache"` singleton slot. -/
def sConn : LMState :=
  { Libraries := [("Cache", [("default", libConn)])], nextId := 4 }

/-- Witness for C5 at a concrete failing Disconnect oracle. -/
theorem C5_witness :
    UnloadLibrary bFailDisc tCache true none sConn =
      (.error ("failed to close connector: " ++ "dc"), sConn, [Event.disconnectCall 3]) :=
  C5_disconnect_failure_preserves_entry bFailDisc tCache true none "default" sConn
    libConn "dc" rfl rfl rfl rfl

/-- C4: construction failure is atomic on both get-or-create paths.  If a
call returns an error, the `Libraries` cache is exactly what it was before
the call (no entry was left behind), and a repeat call with the same key
attempts construction afresh: its trace contains a new `Init` invocation
(Loader path) resp. a new `Install` invocation (type-keyed path, provided
the type implements the Library interface), rather than being served from a
cache. -/
theorem C4_construction_failure_atomic
    (load : LibraryLoader) (B : Behavior) (T : LibType)
    (name : String) (sing : Bool) (key : Option String)
    (args args2 : List Arg) (s s2 : LMState) (e : String) (tr : List Event) :
    (LoadFromLoader load name sing key args s = some (.error e, s2, tr) →
      s2.Libraries = s.Libraries ∧
      Event.initCall name args2 ∈ traceOf (LoadFromLoader load name sing key args2 s2))
  ∧ (T.implementsLibrary = true →
      LoadLibrary B T sing key args s = some (.error e, s2, tr) →
      s2.Libraries = s.Libraries ∧
      Event.installCall s2.nextId args2 ∈ traceOf (LoadLibrary B T sing key args2 s2)) := by
  constructor
  · intro h
    obtain ⟨hs, hm, _⟩ := LoadFromLoader_error_state load name sing key args s s2 e tr h
    subst hs
    exact ⟨rfl, LoadFromLoader_attempts_init load name sing key args2 s2 hm⟩
  · intro himp h
    obtain ⟨hL, hm⟩ := LoadLibrary_error_state B T sing key args s s2 e tr h
    exact ⟨hL, LoadLibrary_attempts_install B T sing key args2 s2 himp
      (probeMiss_of_libraries_eq s s2 T.name sing key hL hm)⟩

/-- The state after a failed reflective construction in `s0`: cache still
empty, allocator bumped. -/
def sBumped : LMState := { Libraries := [], nextId := 1 }

/-- Witness for C4: a failing Loader and a failing Install, each retried. -/
theorem C4_witness :
    (s0.Libraries = s0.Libraries ∧
      Event.initCall "db:bad" [1] ∈
        traceOf (LoadFromLoader failLoader "db:bad" true none [1] s0))
  ∧ (sBumped.Libraries = s0.Libraries ∧
      Event.installCall 1 [1] ∈
        traceOf (LoadLibrary bFailInstall tWidget true none [1] sBumped)) :=
  ⟨(C4_construction_failure_atomic failLoader bFailInstall tWidget "db:bad" true none
      [0] [1] s0 s0 "boom" [Event.initCall "db:bad" [0]]).1 rfl,
   (C4_construction_failure_atomic failLoader bFailInstall tWidget "Widget" true none
      [0] [1] s0 sBumped "ins" [Event.installCall 0 [0]]).2 rfl rfl⟩

theorem mem_of_assocGet {α : Type} (m : List (String × α)) (k : String) (v : α)
    (h : assocGet m k = some v) : (k, v) ∈ m := by
  induction m with
  | nil => simp [assocGet] at h
  | cons hd tl ih =>
      obtain ⟨k2, v2⟩ := hd
      by_cases hk : k2 = k
      · subst hk
        simp [assocGet] at h
        subst h
        exact List.mem_cons_self _ _
      · simp [assocGet, hk] at h
        exact List.mem_cons_of_mem _ (ih h)

theorem removeEntry_nextId (s : LMState) (n k : String) :
    (removeEntry s n k).nextId = s.nextId := by
  simp [removeEntry, apply_ite]

theorem cacheLookup_removeEntry_self (s : LMState) (n k : String) (lib : Library)
    (hwf : wfState s) (hcache : cacheLookup s n k = some lib) :
    cacheLookup (removeEntry s n k) n k = none := by
  cases hbg : assocGet s.Libraries n with
  | none => simp [cacheLookup, hbg] at hcache
  | some bucket =>
      have hnb : (bucket.map Prod.fst).Nodup :=
        hwf.2 (n, bucket) (mem_of_assocGet _ _ _ hbg)
      by_cases hlen : (assocDel bucket k).length = 0
      · simp [removeEntry, hbg, hlen, cacheLookup, assocGet_del_self s.Libraries n hwf.1]
      · simp [removeEntry, hbg, hlen, cacheLookup, assocGet_set_self,
              assocGet_del_self bucket k hnb]

theorem loadLibraryFreshBucket_ok_id (B : Behavior) (T : LibType) (sing : Bool)
    (key : Option String) (args : List Arg) (s : LMState) (r : OpResult)
    (h : loadLibraryFreshBucket B T sing key args s = some r)
    (lib2 : Library) (hok : r.1 = .ok lib2) : lib2.id = s.nextId := by
  unfold loadLibraryFreshBucket at h
  cases himp : T.implementsLibrary with
  | false =>
      simp only [himp, Bool.false_eq_true, if_false] at h
      have hr := Option.some_inj.mp h
      subst hr
      simp at hok
  | true =>
      simp only [himp, eq_self_iff_true, if_true] at h
      cases hins : B.install { id := s.nextId, isConnector := T.isConnector } args with
      | error e2 =>
          rw [hins] at h
          have hr := Option.some_inj.mp h
          subst hr
          simp at hok
      | ok u =>
          rw [hins] at h
          cases hc : T.isConnector with
          | false =>
              simp only [hc, Bool.false_eq_true, if_false] at h
              have hr := Option.some_inj.mp h
              subst hr
              have h2 : ({ id := s.nextId, isConnector := false } : Library) = lib2 := by
                simpa using hok
              rw [← h2]
          | true =>
              simp only [hc] at h
              cases hcon : B.connect { id := s.nextId, isConnector := true } with
              | error e2 =>
                  rw [hcon] at h
                  simp only [eq_self_iff_true, if_true] at h
                  have hr := Option.some_inj.mp h
                  subst hr
                  simp at hok
              | ok u2 =>
                  rw [hcon] at h
                  simp only [eq_self_iff_true, if_true] at h
                  have hr := Option.some_inj.mp h
                  subst hr
                  have h2 : ({ id := s.nextId, isConnector := true } : Library) = lib2 := by
                    simpa using hok
                  rw [← h2]

theorem loadLibraryExistingBucket_ok_id (B : Behavior) (T : LibType) (sing : Bool)
    (key : Option String) (args : List Arg) (libMap : LibMap) (s : LMState)
    (r : OpResult)
    (h : loadLibraryExistingBucket B T sing key args libMap s = some r)
    (lib2 : Library) (hok : r.1 = .ok lib2) : lib2.id = s.nextId := by
  unfold loadLibraryExistingBucket at h
  cases himp : T.implementsLibrary with
  | false =>
      simp only [himp, Bool.false_eq_true, if_false] at h
      have hr := Option.some_inj.mp h
      subst hr
      simp at hok
  | true =>
      simp only [himp, eq_self_iff_true, if_true] at h
      cases hins : B.install { id := s.nextId, isConnector := T.isConnector } args with
      | error e2 =>
          rw [hins] at h
          have hr := Option.some_inj.mp h
          subst hr
          simp at hok
      | ok u =>
          rw [hins] at h
          have hr := Option.some_inj.mp h
          subst hr
          have h2 : ({ id := s.nextId, isConnector := T.isConnector } : Library) = lib2 := by
            simpa using hok
          rw [← h2]

theorem LoadLibrary_fresh_id (B : Behavior) (T : LibType) (sing : Bool)
    (key : Option String) (keyU : String) (args : List Arg) (s : LMState)
    (hk : if sing then keyU = "default" else key = some keyU)
    (hmiss : cacheLookup s T.name keyU = none)
    (r : OpResult) (h : LoadLibrary B T sing key args s = some r)
    (lib2 : Library) (hok : r.1 = .ok lib2) : lib2.id = s.nextId := by
  unfold LoadLibrary at h
  cases hbg : assocGet s.Libraries T.name with
  | none =>
      simp only [hbg] at h
      exact loadLibraryFreshBucket_ok_id B T sing key args s r h lib2 hok
  | some bucket =>
      simp only [cacheLookup, hbg] at hmiss
      cases sing with
      | true =>
          simp only [if_true] at hk
          subst hk
          simp only [hbg, eq_self_iff_true, if_true] at h
          rw [hmiss] at h
          exact loadLibraryExistingBucket_ok_id B T true key args bucket s r h lib2 hok
      | false =>
          simp only [Bool.false_eq_true, if_false] at hk
          subst hk
          simp only [hbg, Bool.false_eq_true, if_false] at h
          rw [hmiss] at h
          exact loadLibraryExistingBucket_ok_id B T false (some keyU) args bucket s r h lib2 hok

/-- C6: a fully successful explicit unload of a loaded, non-connection-
bearing instance returns the instance with `Uninstall` as the only
collaborator call (exactly once), removes the compound key from the cache,
removes the whole bucket when the instance was its only entry, and a
subsequent type-keyed get-or-create for the same compound key yields a
freshly allocated instance, never the uninstalled one. -/
theorem C6_unload_success_fresh_reload
    (B : Behavior) (T : LibType) (sing : Bool) (key : Option String)
    (keyU : String) (s : LMState) (lib : Library)
    (hk : if sing then keyU = "default" else key = some keyU)
    (hwf : wfState s)
    (hcache : cacheLookup s T.name keyU = some lib)
    (hconn : lib.isConnector = false)
    (hunin : B.uninstall lib = .ok ())
    (hid : lib.id < s.nextId) :
    UnloadLibrary B T sing key s =
      (.ok lib, removeEntry s T.name keyU, [Event.uninstallCall lib.id])
  ∧ cacheLookup (removeEntry s T.name keyU) T.name keyU = none
  ∧ (assocGet s.Libraries T.name = some [(keyU, lib)] →
      assocGet (removeEntry s T.name keyU).Libraries T.name = none)
  ∧ (∀ args r2, LoadLibrary B T sing key args (removeEntry s T.name keyU) = some r2 →
      ∀ lib2, r2.1 = .ok lib2 → lib2.id ≠ lib.id) := by
  refine ⟨?_, ?_, ?_, ?_⟩
  · cases hbg : assocGet s.Libraries T.name with
    | none => simp [cacheLookup, hbg] at hcache
    | some libMap =>
        simp only [cacheLookup, hbg] at hcache
        cases sing with
        | true =>
            simp only [if_true] at hk
            subst hk
            simp [UnloadLibrary, hbg, hcache, unload, hconn, hunin]
        | false =>
            simp only [Bool.false_eq_true, if_false] at hk
            subst hk
            simp [UnloadLibrary, hbg, hcache, unload, hconn, hunin]
  · exact cacheLookup_removeEntry_self s T.name keyU lib hwf hcache
  · intro hb
    simp [removeEntry, hb, assocDel, assocGet_del_self s.Libraries T.name hwf.1]
  · intro args r2 h2 lib2 hok
    have hmiss := cacheLookup_removeEntry_self s T.name keyU lib hwf hcache
    have hfresh := LoadLibrary_fresh_id B T sing key keyU args
      (removeEntry s T.name keyU) hk hmiss r2 h2 lib2 hok
    rw [hfresh, removeEntry_nextId]
    exact ne_of_gt hid

/-- A loaded connectionless `"Widget"` singleton with a bumped allocator. -/
def sWidget : LMState :=
  { Libraries := [("Widget", [("default", { id := 5, isConnector := false })])],
    nextId := 6 }

/-- Witness for C6 at a concrete loaded widget. -/
theorem C6_witness :
    UnloadLibrary bOK tWidget true none sWidget =
      (.ok { id := 5, isConnector := false }, removeEntry sWidget "Widget" "default",
       [Event.uninstallCall 5])
  ∧ cacheLookup (removeEntry sWidget "Widget" "default") "Widget" "default" = none
  ∧ ({ id := 6, isConnector := false } : Library).id ≠
      ({ id := 5, isConnector := false } : Library).id := by
  have H := C6_unload_success_fresh_reload bOK tWidget true none "default" sWidget
    { id := 5, isConnector := false } rfl (by decide) rfl rfl rfl (by decide)
  exact ⟨H.1, H.2.1, H.2.2.2 [9] _ rfl { id := 6, isConnector := false } rfl⟩

/-- C8: unloading a compound key that was never loaded fails with the
exact not-found error of its case — the type-not-found error when the
bucket is absent, the instance-not-found error when the bucket exists but
the resolved key is absent — returns the state unchanged, and performs no
collaborator call (empty trace: no Disconnect, no Uninstall). -/
theorem C8_unload_never_loaded
    (B : Behavior) (T : LibType) (sing : Bool) (key : Option String)
    (keyU : String) (s : LMState)
    (hk : if sing then keyU = "default" else key = some keyU) :
    (assocGet s.Libraries T.name = none →
      UnloadLibrary B T sing key s =
        (.error ("library type " ++ T.name ++ " not found"), s, []))
  ∧ (∀ bucket, assocGet s.Libraries T.name = some bucket →
      assocGet bucket keyU = none →
      UnloadLibrary B T sing key s =
        (.error ("library instance with key " ++ keyU ++ " not found"), s, [])) := by
  constructor
  · intro hbg
    simp [UnloadLibrary, hbg]
  · intro bucket hbg hkey
    cases sing with
    | true =>
        simp only [if_true] at hk
        subst hk
        simp [UnloadLibrary, hbg, hkey]
    | false =>
        simp only [Bool.false_eq_true, if_false] at hk
        subst hk
        simp [UnloadLibrary, hbg, hkey]

/-- Witness for C8: absent bucket on the empty registry, and absent key in
the existing `"Cache"` bucket. -/
theorem C8_witness :
    UnloadLibrary bOK tWidget true none s0 =
      (.error ("library type " ++ "Widget" ++ " not found"), s0, [])
  ∧ UnloadLibrary bOK tCache true none sCacheBucket =
      (.error ("library instance with key " ++ "default" ++ " not found"),
       sCacheBucket, []) :=
  ⟨(C8_unload_never_loaded bOK tWidget true none "default" s0 rfl).1 rfl,
   (C8_unload_never_loaded bOK tCache true none "default" sCacheBucket rfl).2
     [("k1", { id := 0, isConnector := true })] rfl rfl⟩

/-- The collaborator calls one `unload` run performs, as a function of the
oracle and the instance only (the registry state does not influence them). -/
def unloadEvents (B : Behavior) (lib : Library) : List Event :=
  if lib.isConnector then
    match B.disconnect lib with
    | .error _ => [.disconnectCall lib.id]
    | .ok _ => [.disconnectCall lib.id, .uninstallCall lib.id]
  else
    [.uninstallCall lib.id]

theorem unload_trace_eq (B : Behavior) (name : String) (lib : Library)
    (k : String) (s : LMState) :
    (unload B name lib k s).2.2 = unloadEvents B lib := by
  cases hc : lib.isConnector with
  | true =>
      cases hd : B.disconnect lib with
      | error e => simp [unload, unloadEvents, hc, hd]
      | ok u => cases hu : B.uninstall lib <;> simp [unload, unloadEvents, hc, hd, hu]
  | false => cases hu : B.uninstall lib <;> simp [unload, unloadEvents, hc, hu]

theorem mem_unloadEvents_disconnect (B : Behavior) (lib : Library)
    (hc : lib.isConnector = true) :
    Event.disconnectCall lib.id ∈ unloadEvents B lib := by
  cases hd : B.disconnect lib <;> simp [unloadEvents, hc, hd]

theorem mem_unloadEvents_uninstall_conn (B : Behavior) (lib : Library)
    (hc : lib.isConnector = true) (hd : B.disconnect lib = .ok ()) :
    Event.uninstallCall lib.id ∈ unloadEvents B lib := by
  simp [unloadEvents, hc, hd]

theorem mem_unloadEvents_uninstall (B : Behavior) (lib : Library)
    (hc : lib.isConnector = false) :
    Event.uninstallCall lib.id ∈ unloadEvents B lib := by
  simp [unloadEvents, hc]

theorem destroyBucket_mono (B : Behavior) (name : String)
    (entries : List (String × Library)) (s : LMState) (tr : List Event)
    (ev : Event) (h : ev ∈ tr) : ev ∈ (destroyBucket B name entries s tr).2 := by
  induction entries generalizing s tr with
  | nil => simpa [destroyBucket]
  | cons hd rest ih =>
      obtain ⟨k, lib⟩ := hd
      simp only [destroyBucket]
      exact ih _ _ (by simp [h])

theorem destroyBucket_attempt (B : Behavior) (name : String)
    (entries : List (String × Library)) (s : LMState) (tr : List Event)
    (k : String) (lib : Library) (hmem : (k, lib) ∈ entries)
    (ev : Event) (hev : ev ∈ unloadEvents B lib) :
    ev ∈ (destroyBucket B name entries s tr).2 := by
  induction entries generalizing s tr with
  | nil => simp at hmem
  | cons hd rest ih =>
      obtain ⟨k2, lib2⟩ := hd
      rcases List.mem_cons.mp hmem with heq | hmem2
      · obtain ⟨hk, hl⟩ := Prod.mk.injEq k lib k2 lib2 ▸ heq
        subst hk
        subst hl
        simp only [destroyBucket]
        apply destroyBucket_mono
        have hin : ev ∈ (unload B name lib k s).2.2 := by
          rw [unload_trace_eq]
          exact hev
        simp [hin]
      · simp only [destroyBucket]
        exact ih _ _ hmem2

theorem destroyAll_mono (B : Behavior) (buckets : List (String × LibMap))
    (s : LMState) (tr : List Event) (ev : Event) (h : ev ∈ tr) :
    ev ∈ (destroyAll B buckets s tr).2 := by
  induction buckets generalizing s tr with
  | nil => simpa [destroyAll]
  | cons hd rest ih =>
      obtain ⟨name, bucket⟩ := hd
      simp only [destroyAll]
      exact ih _ _ (destroyBucket_mono B name bucket s tr ev h)

theorem destroyAll_attempt (B : Behavior) (buckets : List (String × LibMap))
    (s : LMState) (tr : List Event) (name : String) (bucket : LibMap)
    (k : String) (lib : Library)
    (hb : (name, bucket) ∈ buckets) (hmem : (k, lib) ∈ bucket)
    (ev : Event) (hev : ev ∈ unloadEvents B lib) :
    ev ∈ (destroyAll B buckets s tr).2 := by
  induction buckets generalizing s tr with
  | nil => simp at hb
  | cons hd rest ih =>
      obtain ⟨n2, b2⟩ := hd
      rcases List.mem_cons.mp hb with heq | hb2
      · obtain ⟨hn, hbk⟩ := Prod.mk.injEq name bucket n2 b2 ▸ heq
        subst hn
        subst hbk
        simp only [destroyAll]
        exact destroyAll_mono B rest _ _ ev
          (destroyBucket_attempt B name bucket s tr k lib hmem ev hev)
      · simp only [destroyAll]
        exact ih _ _ hb2

/-- The error one `unload` run reports, as a function of the oracle and the
instance only (`none` = full success); mirrors `unload`'s wrapping. -/
def unloadErr (B : Behavior) (lib : Library) : Option String :=
  if lib.isConnector then
    match B.disconnect lib with
    | .error e => some ("failed to close connector: " ++ e)
    | .ok _ =>
        match B.uninstall lib with
        | .error e => some ("failed to destroy library: " ++ e)
        | .ok _ => none
  else
    match B.uninstall lib with
    | .error e => some ("failed to destroy library: " ++ e)
    | .ok _ => none

theorem unload_error_of_unloadErr (B : Behavior) (name : String) (lib : Library)
    (k : String) (s : LMState) (e : String) (he : unloadErr B lib = some e) :
    (unload B name lib k s).1 = .error e := by
  cases hc : lib.isConnector with
  | true =>
      cases hd : B.disconnect lib with
      | error e2 =>
          simp [unloadErr, hc, hd] at he
          subst he
          simp [unload, hc, hd]
      | ok u =>
          cases hu : B.uninstall lib with
          | error e2 =>
              simp [unloadErr, hc, hd, hu] at he
              subst he
              simp [unload, hc, hd, hu]
          | ok u2 => simp [unloadErr, hc, hd, hu] at he
  | false =>
      cases hu : B.uninstall lib with
      | error e2 =>
          simp [unloadErr, hc, hu] at he
          subst he
          simp [unload, hc, hu]
      | ok u2 => simp [unloadErr, hc, hu] at he

theorem destroyBucket_logs (B : Behavior) (name : String)
    (entries : List (String × Library)) (s : LMState) (tr : List Event)
    (k : String) (lib : Library) (e : String)
    (hmem : (k, lib) ∈ entries) (he : unloadErr B lib = some e) :
    Event.warnLog e ∈ (destroyBucket B name entries s tr).2 := by
  induction entries generalizing s tr with
  | nil => simp at hmem
  | cons hd rest ih =>
      obtain ⟨k2, lib2⟩ := hd
      rcases List.mem_cons.mp hmem with heq | hmem2
      · obtain ⟨hk, hl⟩ := Prod.mk.injEq k lib k2 lib2 ▸ heq
        subst hk
        subst hl
        simp only [destroyBucket]
        apply destroyBucket_mono
        have hstep : (unload B name lib k s).1 = .error e :=
          unload_error_of_unloadErr B name lib k s e he
        simp [hstep]
      · simp only [destroyBucket]
        exact ih _ _ hmem2

theorem destroyAll_logs (B : Behavior) (buckets : List (String × LibMap))
    (s : LMState) (tr : List Event) (name : String) (bucket : LibMap)
    (k : String) (lib : Library) (e : String)
    (hb : (name, bucket) ∈ buckets) (hmem : (k, lib) ∈ bucket)
    (he : unloadErr B lib = some e) :
    Event.warnLog e ∈ (destroyAll B buckets s tr).2 := by
  induction buckets generalizing s tr with
  | nil => simp at hb
  | cons hd rest ih =>
      obtain ⟨n2, b2⟩ := hd
      rcases List.mem_cons.mp hb with heq | hb2
      · obtain ⟨hn, hbk⟩ := Prod.mk.injEq name bucket n2 b2 ▸ heq
        subst hn
        subst hbk
        simp only [destroyAll]
        exact destroyAll_mono B rest _ _ _
          (destroyBucket_logs B name bucket s tr k lib e hmem he)
      · simp only [destroyAll]
        exact ih _ _ hb2

/-- C7: the full-registry sweep returns `nil` unconditionally and attempts
cleanup on every loaded instance of every bucket of the pre-sweep state:
for a connection-bearing instance its `Disconnect` is attempted (and, when
that succeeds, its `Uninstall` too); for a connectionless instance its
`Uninstall` is attempted — independently of any other instance failing —
and every per-instance failure is logged: the error `unload` reports for
an instance appears as a `warnLog` entry in the sweep's trace. -/
theorem C7_destroy_best_effort (B : Behavior) (s : LMState) :
    (Destroy B s).1 = .ok ()
  ∧ (∀ name bucket, (name, bucket) ∈ s.Libraries → ∀ k lib, (k, lib) ∈ bucket →
      (lib.isConnector = true →
        Event.disconnectCall lib.id ∈ (Destroy B s).2.2 ∧
        (B.disconnect lib = .ok () → Event.uninstallCall lib.id ∈ (Destroy B s).2.2))
    ∧ (lib.isConnector = false → Event.uninstallCall lib.id ∈ (Destroy B s).2.2))
  ∧ (∀ name bucket, (name, bucket) ∈ s.Libraries → ∀ k lib, (k, lib) ∈ bucket →
      ∀ e, unloadErr B lib = some e → Event.warnLog e ∈ (Destroy B s).2.2) := by
  refine ⟨rfl, ?_, ?_⟩
  · intro name bucket hb k lib hmem
    have hA : ∀ ev, ev ∈ unloadEvents B lib → ev ∈ (Destroy B s).2.2 := fun ev hev =>
      destroyAll_attempt B s.Libraries s [] name bucket k lib hb hmem ev hev
    exact ⟨fun hc => ⟨hA _ (mem_unloadEvents_disconnect B lib hc),
                     fun hd => hA _ (mem_unloadEvents_uninstall_conn B lib hc hd)⟩,
           fun hc => hA _ (mem_unloadEvents_uninstall B lib hc)⟩
  · intro name bucket hb k lib hmem e he
    exact destroyAll_logs B s.Libraries s [] name bucket k lib e hb hmem he

/-- Oracle for the C7 witness: `Disconnect` is stuck for instance 20 only. -/
def bSelective : Behavior :=
  { install := fun _ _ => .ok (), connect := fun _ => .ok (),
    disconnect := fun l => if l.id = 20 then .error "stuck" else .ok (),
    uninstall := fun _ => .ok () }

/-- Three loaded instances across two buckets; instance 20 fails Disconnect. -/
def sThree : LMState :=
  { Libraries := [("db", [("default", { id := 20, isConnector := true }),
                          ("extra", { id := 21, isConnector := true })]),
                  ("w", [("default", { id := 22, isConnector := false })])],
    nextId := 23 }

/-- Witness for C7: sweep over three instances, one stuck Disconnect; the
sweep still returns `nil`, attempts cleanup on all three, and logs the
stuck instance's wrapped error. -/
theorem C7_witness :
    (Destroy bSelective sThree).1 = .ok ()
  ∧ Event.disconnectCall 20 ∈ (Destroy bSelective sThree).2.2
  ∧ Event.uninstallCall 21 ∈ (Destroy bSelective sThree).2.2
  ∧ Event.uninstallCall 22 ∈ (Destroy bSelective sThree).2.2
  ∧ Event.warnLog ("failed to close connector: " ++ "stuck") ∈
      (Destroy bSelective sThree).2.2 := by
  have H := C7_destroy_best_effort bSelective sThree
  refine ⟨H.1, ?_, ?_, ?_, ?_⟩
  · exact ((H.2.1 "db" [("default", { id := 20, isConnector := true }),
                        ("extra", { id := 21, isConnector := true })] (by simp [sThree])
            "default" { id := 20, isConnector := true } (by simp)).1 rfl).1
  · exact (((H.2.1 "db" [("default", { id := 20, isConnector := true }),
                         ("extra", { id := 21, isConnector := true })] (by simp [sThree])
            "extra" { id := 21, isConnector := true } (by simp)).1 rfl).2 rfl)
  · exact ((H.2.1 "w" [("default", { id := 22, isConnector := false })] (by simp [sThree])
            "default" { id := 22, isConnector := false } (by simp)).2 rfl)
  · exact H.2.2 "db" [("default", { id := 20, isConnector := true }),
                      ("extra", { id := 21, isConnector := true })] (by simp [sThree])
      "default" { id := 20, isConnector := true } (by simp)
      ("failed to close connector: " ++ "stuck") rfl

/-- C9: the middleware handler runs validator, authenticator, authorizer in
that order, stops at the first failure with a 401 response carrying the
failing check's message (later checks never run — their events are absent
from the trace), and falls through to `c.Next()` exactly when all three
checks pass. -/
theorem C9_auth_chain_short_circuit (a : AuthN) (c : AuthCtx) :
    (∀ e, a.validateKey c = .error e →
      GetAuthenticatonHandler a c =
        (.unauthorized 401 2 "UNAUTHORIZED" e, [.validateKeyCall]))
  ∧ (∀ e, a.validateKey c = .ok () → a.authnCheck c = .error e →
      GetAuthenticatonHandler a c =
        (.unauthorized 401 2 "UNAUTHORIZED" e, [.validateKeyCall, .authnCheckCall]))
  ∧ (∀ e, a.validateKey c = .ok () → a.authnCheck c = .ok () →
      a.authzCheck (a.loadedUser c) c.method c.path = .error e →
      GetAuthenticatonHandler a c =
        (.unauthorized 401 2 "UNAUTHORIZED" e,
         [.validateKeyCall, .authnCheckCall, .authzCheckCall]))
  ∧ ((GetAuthenticatonHandler a c).1 = .next ↔
      a.validateKey c = .ok () ∧ a.authnCheck c = .ok () ∧
      a.authzCheck (a.loadedUser c) c.method c.path = .ok ()) := by
  refine ⟨?_, ?_, ?_, ?_⟩
  · intro e he
    simp [GetAuthenticatonHandler, he]
  · intro e hv ha
    simp [GetAuthenticatonHandler, hv, ha]
  · intro e hv ha hz
    simp [GetAuthenticatonHandler, hv, ha, hz]
  · cases hv : a.validateKey c with
    | error e => simp [GetAuthenticatonHandler, hv]
    | ok u =>
        cases u
        cases ha : a.authnCheck c with
        | error e => simp [GetAuthenticatonHandler, hv, ha]
        | ok u2 =>
            cases u2
            cases hz : a.authzCheck (a.loadedUser c) c.method c.path with
            | error e => simp [GetAuthenticatonHandler, hv, ha, hz]
            | ok u3 =>
                cases u3
                simp [GetAuthenticatonHandler, hv, ha, hz]

/-- A middleware whose three checks all pass. -/
def authAllOK : AuthN :=
  { validateKey := fun _ => .ok (), authnCheck := fun _ => .ok (),
    loadedUser := fun _ => { uid := 1 },
    authzCheck := fun _ _ _ => .ok () }

/-- A concrete request context. -/
def ctx0 : AuthCtx := { method := "GET", path := "/things" }

/-- Witness for C9: with all checks passing the request proceeds. -/
theorem C9_witness :
    (GetAuthenticatonHandler authAllOK ctx0).1 = HandlerResult.next :=
  ((C9_auth_chain_short_circuit authAllOK ctx0).2.2.2).mpr ⟨rfl, rfl, rfl⟩

/-- A loader named `"db"` for the nil-key run. -/
def dbLoader : LibraryLoader :=
  { name := "db", init := fun _ => .ok { id := 11, isConnector := false } }

/-- A state whose `"db"` bucket already exists (under an unrelated key). -/
def sDb : LMState :=
  { Libraries := [("db", [("x", { id := 9, isConnector := false })])], nextId := 10 }

/-- C10 counterexample: with `singleton = false` and a nil key, the call is
NOT total in every branch — when a bucket for the name already exists the
nil key pointer is dereferenced by the cache probe before any substitution,
and the call panics (models Go's nil-pointer dereference). -/
theorem C10_counterexample_nil_key_panic :
    LoadFromLoader dbLoader "db" false none [] sDb = none := rfl

/-- C10 (amended): the `"default"` substitution for a nil non-singleton key
happens only on the store paths, so the call completes when no bucket for
the name exists, and panics whenever the bucket already exists. -/
theorem C10_amended_nil_key_partial_totality
    (load : LibraryLoader) (name : String) (args : List Arg) (s : LMState) :
    (assocGet s.Libraries name = none →
      ∃ r, LoadFromLoader load name false none args s = some r)
  ∧ (∀ bucket, assocGet s.Libraries name = some bucket →
      LoadFromLoader load name false none args s = none) := by
  constructor
  · intro hbg
    unfold LoadFromLoader loadFromLoaderTail
    simp only [hbg]
    cases hinit : load.init args with
    | error e => exact ⟨_, rfl⟩
    | ok lib => exact ⟨_, rfl⟩
  · intro bucket hbg
    simp [LoadFromLoader, hbg]

/-- Witness for the amended C10: on the empty registry the nil-key call
completes. -/
theorem C10_witness :
    ∃ r, LoadFromLoader dbLoader "db" false none [] s0 = some r :=
  (C10_amended_nil_key_partial_totality dbLoader "db" [] s0).1 rfl
